import Mathlib

/-!
Verification of the property/event logging service (`src/server/server.py`)
against its specification.  The Python handlers are shallowly embedded: the
SQLite store becomes an explicit `DB` value, each FastAPI handler becomes a
pure function over `DB`, and `raise HTTPException(...)` becomes the `.error`
branch of `Except HTTPException`.
-/

namespace Server

/-- A calendar timestamp with microsecond precision, mirroring Python's
`datetime` for the fields this service uses (no timezone: the service never
parses or stores offsets). -/
structure DateTime where
  year : Nat
  month : Nat
  day : Nat
  hour : Nat
  minute : Nat
  second : Nat
  microsecond : Nat
deriving DecidableEq, Repr

/-- A time of day, mirroring Python's `datetime.time` fields used here. -/
structure Time where
  hour : Nat
  minute : Nat
  second : Nat
  microsecond : Nat
deriving DecidableEq, Repr

/-- Python `time.min` = 00:00:00. -/
def Time.min : Time := ⟨0, 0, 0, 0⟩

/-- Python `time.max` = 23:59:59.999999. -/
def Time.max : Time := ⟨23, 59, 59, 999999⟩

/-- Python `datetime.time()`: the time-of-day part of a datetime. -/
def DateTime.timePart (d : DateTime) : Time :=
  ⟨d.hour, d.minute, d.second, d.microsecond⟩

/-- Python `datetime.combine(d, t)`: keep the date part of `d`, take the
time of day from `t`. -/
def DateTime.combine (d : DateTime) (t : Time) : DateTime :=
  ⟨d.year, d.month, d.day, t.hour, t.minute, t.second, t.microsecond⟩

/-- Field-lexicographic order on timestamps.  SQLAlchemy stores `DateTime`
values in SQLite as zero-padded `YYYY-MM-DD HH:MM:SS.ffffff` text, whose
string comparison coincides with comparing the fields lexicographically. -/
def DateTime.le (a b : DateTime) : Bool :=
  if a.year ≠ b.year then decide (a.year < b.year)
  else if a.month ≠ b.month then decide (a.month < b.month)
  else if a.day ≠ b.day then decide (a.day < b.day)
  else if a.hour ≠ b.hour then decide (a.hour < b.hour)
  else if a.minute ≠ b.minute then decide (a.minute < b.minute)
  else if a.second ≠ b.second then decide (a.second < b.second)
  else decide (a.microsecond ≤ b.microsecond)

/-- Numeric value of a decimal digit character, `none` otherwise. -/
def digitVal (c : Char) : Option Nat :=
  if c.isDigit then some (c.toNat - 48) else none

/-- Read exactly two decimal digits. -/
def readTwoDigits : List Char → Option (Nat × List Char)
  | a :: b :: rest => do
    let x ← digitVal a
    let y ← digitVal b
    pure (10 * x + y, rest)
  | _ => none

/-- Read exactly four decimal digits. -/
def readFourDigits : List Char → Option (Nat × List Char)
  | a :: b :: c :: d :: rest => do
    let w ← digitVal a
    let x ← digitVal b
    let y ← digitVal c
    let z ← digitVal d
    pure (1000 * w + 100 * x + 10 * y + z, rest)
  | _ => none

/-- Consume one expected character. -/
def expectChar (c : Char) : List Char → Option (List Char)
  | x :: rest => if x = c then some rest else none
  | _ => none

/-- Take a maximal run of decimal digits from the front of the input. -/
def takeDigits : List Char → List Nat × List Char
  | [] => ([], [])
  | c :: rest =>
    match digitVal c with
    | some d =>
      let p := takeDigits rest
      (d :: p.1, p.2)
    | none => ([], c :: rest)

/-- Value of a list of fractional-second digits, scaled to microseconds
(so `[9,9,9]` means 999000 microseconds). -/
def fracToMicroseconds (ds : List Nat) : Nat :=
  (ds.foldl (fun acc d => 10 * acc + d) 0) * 10 ^ (6 - ds.length)

/-- Parse `HH:MM[:SS[.f{1..6}]]` (field ranges are validated by the caller). -/
def readTimeOfDay (cs : List Char) : Option (Nat × Nat × Nat × Nat) := do
  let (h, cs) ← readTwoDigits cs
  let cs ← expectChar ':' cs
  let (mi, cs) ← readTwoDigits cs
  match cs with
  | [] => pure (h, mi, 0, 0)
  | ':' :: cs2 => do
    let (s, cs3) ← readTwoDigits cs2
    match cs3 with
    | [] => pure (h, mi, s, 0)
    | '.' :: cs4 =>
      let p := takeDigits cs4
      if p.2 = [] ∧ 1 ≤ p.1.length ∧ p.1.length ≤ 6 then
        pure (h, mi, s, fracToMicroseconds p.1)
      else none
    | _ => none
  | _ => none

/-- Python leap-year rule (`calendar.isleap`). -/
def isLeapYear (y : Nat) : Bool :=
  (y % 4 = 0 && y % 100 ≠ 0) || y % 400 = 0

/-- Number of days in the given month of the given year. -/
def daysInMonth (y m : Nat) : Nat :=
  if m = 2 then (if isLeapYear y then 29 else 28)
  else if m = 4 ∨ m = 6 ∨ m = 9 ∨ m = 11 then 30
  else 31

/-- Model of Python's `datetime.fromisoformat` restricted to the naive forms
this service accepts and documents: `YYYY-MM-DD` and
`YYYY-MM-DD[T ]HH:MM[:SS[.f{1..6}]]` (no timezone offsets, which the service
never supplies).  Field ranges are validated as Python does: month 1–12, day
within the month's length (leap years included), hour ≤ 23, minute ≤ 59,
second ≤ 59. -/
def fromisoformat (s : String) : Option DateTime := do
  let cs := s.toList
  let (y, cs) ← readFourDigits cs
  let cs ← expectChar '-' cs
  let (mo, cs) ← readTwoDigits cs
  let cs ← expectChar '-' cs
  let (d, cs) ← readTwoDigits cs
  let (h, mi, sec, us) ←
    match cs with
    | [] => some (0, 0, 0, 0)
    | sep :: rest => if sep = 'T' ∨ sep = ' ' then readTimeOfDay rest else none
  if 1 ≤ mo ∧ mo ≤ 12 ∧ 1 ≤ d ∧ d ≤ daysInMonth y mo ∧
      h ≤ 23 ∧ mi ≤ 59 ∧ sec ≤ 59 then
    some ⟨y, mo, d, h, mi, sec, us⟩
  else none

/-- Embeds `validateDateTime` (src/server/server.py lines 77–91): parse the
string; when the parsed time of day is exactly 00:00:00, combine the date
with `defaultTime`, otherwise return the parsed datetime unchanged.  (The
Python `if parsedDateTime:` test is always true for a parsed datetime, so
the dead `return None` branch has no counterpart here.) -/
def validateDateTime (dateTimeString : String) (defaultTime : Time) :
    Option DateTime :=
  match fromisoformat dateTimeString with
  | some parsedDateTime =>
    if parsedDateTime.timePart = Time.min then
      some (parsedDateTime.combine defaultTime)
    else
      some parsedDateTime
  | none => none

/-- A row of the `properties` table. -/
structure Property where
  id : Nat
  number : String
  notes : String
deriving DecidableEq, Repr

/-- A row of the `logs` table (an Event). -/
structure Log where
  propertyId : Nat
  id : Nat
  timestamp : DateTime
  description : String
deriving DecidableEq, Repr

/-- The SQLite store: both tables in rowid (= insertion = id) order, plus the
next autoincrement id of each table.  `first()` on an unordered query is row
order, which for these tables is id order. -/
structure DB where
  properties : List Property
  logs : List Log
  nextPropertyId : Nat
  nextLogId : Nat
deriving DecidableEq, Repr

/-- An autoincrement id is fresh: strictly above every id already present. -/
def DB.WF (db : DB) : Prop :=
  (∀ p ∈ db.properties, p.id < db.nextPropertyId) ∧
  (∀ l ∈ db.logs, l.id < db.nextLogId)

/-- FastAPI's `HTTPException`: a status code and a detail message. -/
structure HTTPException where
  status_code : Nat
  detail : String
deriving DecidableEq, Repr

/-- Python truthiness of a `str | None` parameter: `None` and the empty
string are falsy. -/
def strTruthy : Option String → Bool
  | none => false
  | some s => !s.isEmpty

/-- Embeds `create_property` (lines 99–106): insert a row with a fresh id
and return the persisted record. -/
def create_property (db : DB) (number notes : String) : DB × Property :=
  let p : Property := ⟨db.nextPropertyId, number, notes⟩
  (⟨db.properties ++ [p], db.logs, db.nextPropertyId + 1, db.nextLogId⟩, p)

/-- Embeds `get_property` (lines 123–129): first row with matching id, 404
if none. -/
def get_property (db : DB) (property_id : Nat) : Except HTTPException Property :=
  match db.properties.find? (fun p => p.id == property_id) with
  | none => .error ⟨404, "Property not found."⟩
  | some p => .ok p

/-- Embeds `delete_property` (lines 149–165): 404 when the property is
absent; otherwise delete every log with this `propertyId`, then the property
itself, in one commit. -/
def delete_property (db : DB) (property_id : Nat) :
    Except HTTPException (DB × String) :=
  match db.properties.find? (fun p => p.id == property_id) with
  | none => .error ⟨404, "Property not found."⟩
  | some _ =>
    .ok (⟨db.properties.filter (fun p => p.id != property_id),
          db.logs.filter (fun l => l.propertyId != property_id),
          db.nextPropertyId, db.nextLogId⟩,
         "Property and associated logs deleted.")

/-- Embeds `get_property_events` (lines 169–215).  Faithful to the source,
including its end-bound comparison: the source filters
`Log.timestamp >= parsed_end` (line 192), so the end filter here keeps
exactly the logs with `parsed_end ≤ timestamp`. -/
def get_property_events (db : DB) (property_id : Nat)
    (start_date end_date : Option String) :
    Except HTTPException (List Log) :=
  let query := db.logs.filter (fun l => l.propertyId == property_id)
  let startStep : Except HTTPException (List Log) :=
    if strTruthy start_date then
      match validateDateTime (start_date.getD "") Time.min with
      | some parsed_start =>
        .ok (query.filter (fun l => DateTime.le parsed_start l.timestamp))
      | none =>
        .error ⟨400,
          "Unable to parse start_date. Use YYYY-MM-DD or YYYY-MM-DDTHH:MM:SS"⟩
    else .ok query
  match startStep with
  | .error e => .error e
  | .ok query1 =>
    let endStep : Except HTTPException (List Log) :=
      if strTruthy end_date then
        match validateDateTime (end_date.getD "") Time.max with
        | some parsed_end =>
          .ok (query1.filter (fun l => DateTime.le parsed_end l.timestamp))
        | none =>
          .error ⟨400,
            "Unable to parse end_date. Use YYYY-MM-DD or YYYY-MM-DDTHH:MM:SS"⟩
      else .ok query1
    match endStep with
    | .error e => .error e
    | .ok logs =>
      if logs.isEmpty then
        .error ⟨404,
          if strTruthy start_date || strTruthy end_date then
            "No events found for this property in the given range."
          else
            "No events found for this property."⟩
      else .ok logs

/-- Embeds `create_event` (lines 218–242): a truthy timestamp string must
validate (else 400); an absent one defaults to `datetime.now()`, passed here
as the explicit `now` argument.  No check that the property exists. -/
def create_event (db : DB) (property_id : Nat) (description : String)
    (timestamp : Option String) (now : DateTime) :
    Except HTTPException (DB × Log) :=
  let parsed : Except HTTPException DateTime :=
    if strTruthy timestamp then
      match validateDateTime (timestamp.getD "") Time.min with
      | some t => .ok t
      | none =>
        .error ⟨400,
          "Unable to parse timestamp. Use YYYY-MM-DD or YYYY-MM-DDTHH:MM:SS"⟩
    else .ok now
  match parsed with
  | .error e => .error e
  | .ok parsed_timestamp =>
    let log : Log := ⟨property_id, db.nextLogId, parsed_timestamp, description⟩
    .ok (⟨db.properties, db.logs ++ [log],
          db.nextPropertyId, db.nextLogId + 1⟩, log)

/-- Embeds `get_event` (lines 245–255).  The source's filter is the Python
expression `Log.propertyId == property_id and Log.id == event_id`; `and`
evaluates the truthiness of its left operand, a SQLAlchemy `==` expression
whose `__bool__` compares the hashes of a column object and an integer and
is false, so the whole expression collapses to the left conjunct and the
query filters on `propertyId` alone, ignoring `event_id`. -/
def get_event (db : DB) (property_id event_id : Nat) :
    Except HTTPException Log :=
  match db.logs.find? (fun l => l.propertyId == property_id) with
  | none => .error ⟨404, "Log not found."⟩
  | some log => .ok log

/-- Embeds `delete_event` (lines 261–273).  Two slips in the source: the
filter's `and` collapses to `Log.propertyId == property_id` exactly as in
`get_event`, and the query selects `Property`, not `Log`.  SQLAlchemy turns
a `Property` query filtered on `Log` columns into a cartesian product
`FROM properties, logs WHERE logs.propertyId = ?`, whose `first()` row pairs
the first property row with the first matching log; `db.delete` then removes
that property row (no ORM cascade is configured and SQLite foreign keys are
not enabled, so its logs stay behind). -/
def delete_event (db : DB) (property_id event_id : Nat) :
    Except HTTPException (DB × String) :=
  let found : Option Property :=
    match db.properties with
    | [] => none
    | p :: _ =>
      if db.logs.any (fun l => l.propertyId == property_id) then some p
      else none
  match found with
  | none => .error ⟨404, "Event not found"⟩
  | some p =>
    .ok (⟨db.properties.filter (fun q => q.id != p.id), db.logs,
          db.nextPropertyId, db.nextLogId⟩,
         "Event deleted")

/-! Concrete states used to exercise the handlers. -/

/-- One property (id 1), no events yet. -/
def dbProp1 : DB := ⟨[⟨1, "101", "corner unit"⟩], [], 2, 1⟩

/-- The event `create_event` stores for property 1 from timestamp
"2024-03-01" (date-only input completes to midnight). -/
def eventMar1 : Log := ⟨1, 1, ⟨2024, 3, 1, 0, 0, 0, 0⟩, "inspection"⟩

/-- `dbProp1` after the March 1 event is created. -/
def dbWithEvent : DB := ⟨[⟨1, "101", "corner unit"⟩], [eventMar1], 2, 2⟩

/-- An arbitrary current time for calls that supply an explicit timestamp. -/
def now0 : DateTime := ⟨2024, 5, 5, 12, 0, 0, 0⟩

/-- One property with two events, ids 1 and 2. -/
def dbTwoEvents : DB :=
  ⟨[⟨1, "101", "corner unit"⟩],
   [⟨1, 1, ⟨2024, 1, 1, 0, 0, 0, 0⟩, "first"⟩,
    ⟨1, 2, ⟨2024, 1, 2, 0, 0, 0, 0⟩, "second"⟩], 2, 3⟩

/-- One property with one event. -/
def dbOneEvent : DB :=
  ⟨[⟨1, "101", "corner unit"⟩],
   [⟨1, 1, ⟨2024, 1, 1, 0, 0, 0, 0⟩, "first"⟩], 2, 2⟩

/-! Helper lemmas shared by several results below. -/

/-- Listing twice with start strings that validate identically gives
identical results. -/
theorem get_property_events_start_ext (db : DB) (property_id : Nat)
    (s1 s2 : String) (h1 : s1.isEmpty = false) (h2 : s2.isEmpty = false)
    (hv : validateDateTime s1 Time.min = validateDateTime s2 Time.min)
    (ed : Option String) :
    get_property_events db property_id (some s1) ed =
      get_property_events db property_id (some s2) ed := by
  unfold get_property_events
  simp only [strTruthy, h1, h2, Bool.not_false, if_true, Option.getD_some, hv]

/-- Listing twice with end strings that validate identically gives
identical results. -/
theorem get_property_events_end_ext (db : DB) (property_id : Nat)
    (s1 s2 : String) (h1 : s1.isEmpty = false) (h2 : s2.isEmpty = false)
    (hv : validateDateTime s1 Time.max = validateDateTime s2 Time.max)
    (sd : Option String) :
    get_property_events db property_id sd (some s1) =
      get_property_events db property_id sd (some s2) := by
  unfold get_property_events
  simp only [strTruthy, h1, h2, Bool.not_false, if_true, Option.getD_some, hv]

/-! Claim theorems. -/

/-- C1: refuted on the code.  The event created for property 1 with explicit
timestamp "2024-03-01" has its timestamp inside the range
[start "2024-02-01", end "2024-04-01"] as parsed by the handler, yet listing
with that range returns 404; and a range lying entirely before the
timestamp ("2024-01-01" to "2024-02-01") returns the event.  The cause is
the end-bound filter `Log.timestamp >= parsed_end` in the source (line 192),
where the spec requires `<=`. -/
theorem listEvents_end_bound_reversed :
    create_event dbProp1 1 "inspection" (some "2024-03-01") now0 =
      .ok (dbWithEvent, eventMar1)
    ∧ validateDateTime "2024-02-01" Time.min = some ⟨2024, 2, 1, 0, 0, 0, 0⟩
    ∧ validateDateTime "2024-04-01" Time.max =
        some ⟨2024, 4, 1, 23, 59, 59, 999999⟩
    ∧ DateTime.le ⟨2024, 2, 1, 0, 0, 0, 0⟩ eventMar1.timestamp = true
    ∧ DateTime.le eventMar1.timestamp ⟨2024, 4, 1, 23, 59, 59, 999999⟩ = true
    ∧ get_property_events dbWithEvent 1 (some "2024-02-01")
        (some "2024-04-01") =
        .error ⟨404, "No events found for this property in the given range."⟩
    ∧ get_property_events dbWithEvent 1 (some "2024-01-01")
        (some "2024-02-01") = .ok [eventMar1] :=
  ⟨rfl, rfl, rfl, rfl, rfl, rfl, rfl⟩

/-- C2: refuted on the code.  With events 1 and 2 stored under property 1,
`get_event` for (property 1, event 2) returns the event with id 1, and
`get_event` for nonexistent event id 99 also returns event 1 instead of
404: the handler's collapsed filter ignores `event_id`. -/
theorem get_event_ignores_event_id :
    get_event dbTwoEvents 1 2 =
      .ok ⟨1, 1, ⟨2024, 1, 1, 0, 0, 0, 0⟩, "first"⟩
    ∧ (1 : Nat) ≠ 2
    ∧ get_event dbTwoEvents 1 99 =
        .ok ⟨1, 1, ⟨2024, 1, 1, 0, 0, 0, 0⟩, "first"⟩ :=
  ⟨rfl, by decide, rfl⟩

/-- C3: refuted on the code.  Deleting event 1 of property 1 from a store
with one property and that one event leaves the event in place and deletes
the property row instead: the handler queries the `properties` table with a
filter that collapses to the property-id condition on `logs`. -/
theorem delete_event_deletes_property_instead :
    delete_event dbOneEvent 1 1 =
      .ok (⟨[], [⟨1, 1, ⟨2024, 1, 1, 0, 0, 0, 0⟩, "first"⟩], 2, 2⟩,
           "Event deleted")
    ∧ dbOneEvent.properties ≠ []
    ∧ dbOneEvent.logs = [⟨1, 1, ⟨2024, 1, 1, 0, 0, 0, 0⟩, "first"⟩] :=
  ⟨rfl, by decide, rfl⟩

/-- When a property has no matching logs, listing never succeeds, whatever
range strings are supplied. -/
theorem get_property_events_ne_ok_of_empty (db : DB) (property_id : Nat)
    (sd ed : Option String)
    (hq : db.logs.filter (fun l => l.propertyId == property_id) = []) :
    ∀ logs, get_property_events db property_id sd ed ≠ .ok logs := by
  intro logs h
  unfold get_property_events at h
  rw [hq] at h
  repeat' split at h
  all_goals simp_all

/-- C4: after `delete_property` succeeds, fetching the property is 404,
fetching any of its events is 404, plain listing is 404 with the
no-events message, listing never succeeds for any range, and no log with
that `propertyId` remains — all effects of the single delete operation. -/
theorem delete_property_cascades (db : DB) (property_id : Nat)
    (db2 : DB) (msg : String)
    (h : delete_property db property_id = .ok (db2, msg)) :
    get_property db2 property_id = .error ⟨404, "Property not found."⟩
    ∧ (∀ event_id, get_event db2 property_id event_id =
        .error ⟨404, "Log not found."⟩)
    ∧ get_property_events db2 property_id none none =
        .error ⟨404, "No events found for this property."⟩
    ∧ (∀ sd ed logs, get_property_events db2 property_id sd ed ≠ .ok logs)
    ∧ (∀ l ∈ db2.logs, l.propertyId ≠ property_id) := by
  unfold delete_property at h
  cases hf : db.properties.find? (fun p => p.id == property_id) with
  | none => rw [hf] at h; exact absurd h (by simp)
  | some p =>
    rw [hf] at h
    simp only [Except.ok.injEq, Prod.mk.injEq] at h
    obtain ⟨hdb, hmsg⟩ := h
    subst hdb
    have hlogs : ∀ l ∈ db.logs.filter (fun l => l.propertyId != property_id),
        (l.propertyId == property_id) = false := by
      intro l hl
      rw [List.mem_filter] at hl
      have h2 := hl.2
      simp only [bne_iff_ne, ne_eq] at h2
      simp only [beq_eq_false_iff_ne, ne_eq]
      exact h2
    have hq : (db.logs.filter (fun l => l.propertyId != property_id)).filter
        (fun l => l.propertyId == property_id) = [] := by
      rw [List.filter_eq_nil_iff]
      intro a ha
      simp only [hlogs a ha, Bool.false_eq_true, not_false_eq_true]
    have hfp : (db.properties.filter (fun q => q.id != property_id)).find?
        (fun q => q.id == property_id) = none := by
      rw [List.find?_eq_none]
      intro x hx
      rw [List.mem_filter] at hx
      have h2 := hx.2
      simp only [bne_iff_ne, ne_eq] at h2
      simp only [beq_iff_eq]
      exact h2
    have hfl : (db.logs.filter (fun l => l.propertyId != property_id)).find?
        (fun l => l.propertyId == property_id) = none := by
      rw [List.find?_eq_none]
      intro x hx
      have := hlogs x hx
      simp [this]
    refine ⟨?_, ?_, ?_, ?_, ?_⟩
    · simp [get_property, hfp]
    · intro event_id; simp [get_event, hfl]
    · simp [get_property_events, strTruthy, hq]
    · intro sd ed
      exact get_property_events_ne_ok_of_empty
        ⟨db.properties.filter (fun q => q.id != property_id),
         db.logs.filter (fun l => l.propertyId != property_id),
         db.nextPropertyId, db.nextLogId⟩ property_id sd ed hq
    · intro l hl
      rw [List.mem_filter] at hl
      have h2 := hl.2
      simpa using h2

/-- C4 witness: deleting property 1 from `dbOneEvent` empties the store, and
the subsequent fetches all fail as the theorem states. -/
theorem delete_property_cascades_witness :
    get_property ⟨[], [], 2, 2⟩ 1 = .error ⟨404, "Property not found."⟩
    ∧ get_event ⟨[], [], 2, 2⟩ 1 1 = .error ⟨404, "Log not found."⟩
    ∧ get_property_events ⟨[], [], 2, 2⟩ 1 none none =
        .error ⟨404, "No events found for this property."⟩ := by
  have h := delete_property_cascades dbOneEvent 1 ⟨[], [], 2, 2⟩
    "Property and associated logs deleted." rfl
  exact ⟨h.1, h.2.1 1, h.2.2.1⟩

/-- C5: a date-only start bound is interchangeable with explicit
start-of-day, and a date-only end bound with explicit end-of-day, for every
store, property and companion bound. -/
theorem date_only_bounds_equivalent (db : DB) (property_id : Nat) :
    (∀ ed, get_property_events db property_id (some "2024-01-01") ed =
      get_property_events db property_id (some "2024-01-01T00:00:00") ed)
    ∧ (∀ sd, get_property_events db property_id sd (some "2024-01-01") =
      get_property_events db property_id sd
        (some "2024-01-01T23:59:59.999999")) := by
  constructor
  · intro ed
    exact get_property_events_start_ext db property_id "2024-01-01"
      "2024-01-01T00:00:00" rfl rfl rfl ed
  · intro sd
    exact get_property_events_end_ext db property_id "2024-01-01"
      "2024-01-01T23:59:59.999999" rfl rfl rfl sd

/-- C6: a string the datetime parser rejects is refused with status 400 and
a message naming the two accepted formats, whether it arrives as
create-event's timestamp, as start_date, or as end_date; the error return
means no event is created or listed. -/
theorem unparsable_date_rejected (db : DB) (property_id : Nat)
    (description : String) (s : String) (now : DateTime)
    (hbad : fromisoformat s = none) (hne : s.isEmpty = false) :
    create_event db property_id description (some s) now =
      .error ⟨400,
        "Unable to parse timestamp. Use YYYY-MM-DD or YYYY-MM-DDTHH:MM:SS"⟩
    ∧ (∀ ed, get_property_events db property_id (some s) ed =
        .error ⟨400,
          "Unable to parse start_date. Use YYYY-MM-DD or YYYY-MM-DDTHH:MM:SS"⟩)
    ∧ get_property_events db property_id none (some s) =
        .error ⟨400,
          "Unable to parse end_date. Use YYYY-MM-DD or YYYY-MM-DDTHH:MM:SS"⟩ := by
  have hv1 : validateDateTime s Time.min = none := by
    simp [validateDateTime, hbad]
  have hv2 : validateDateTime s Time.max = none := by
    simp [validateDateTime, hbad]
  refine ⟨?_, ?_, ?_⟩
  · simp [create_event, strTruthy, hne, hv1]
  · intro ed; simp [get_property_events, strTruthy, hne, hv1]
  · simp [get_property_events, strTruthy, hne, hv2]

/-- C6 witness: "not-a-date" is rejected in both positions on a concrete
store. -/
theorem unparsable_date_rejected_witness :
    create_event ⟨[], [], 1, 1⟩ 1 "inspection" (some "not-a-date") now0 =
      .error ⟨400,
        "Unable to parse timestamp. Use YYYY-MM-DD or YYYY-MM-DDTHH:MM:SS"⟩
    ∧ get_property_events ⟨[], [], 1, 1⟩ 1 none (some "not-a-date") =
      .error ⟨400,
        "Unable to parse end_date. Use YYYY-MM-DD or YYYY-MM-DDTHH:MM:SS"⟩ := by
  have h := unparsable_date_rejected ⟨[], [], 1, 1⟩ 1 "inspection"
    "not-a-date" now0 rfl rfl
  exact ⟨h.1, h.2.2⟩

/-- Helper for the listing tail: a computed result list either yields a
nonempty success or the supplied 404. -/
theorem listing_result_cases (X : List Log) (e : HTTPException) :
    (∃ logs, (if X.isEmpty then (.error e : Except HTTPException (List Log))
        else .ok X) = .ok logs ∧ logs ≠ [])
    ∨ (if X.isEmpty then (.error e : Except HTTPException (List Log))
        else .ok X) = .error e := by
  cases hX : X.isEmpty with
  | true => right; simp [hX]
  | false =>
    left
    refine ⟨X, by simp [hX], ?_⟩
    intro hnil
    rw [hnil] at hX
    simp at hX

/-- C7: whenever the supplied bounds validate, listing either succeeds with
a nonempty result or fails with 404, the message saying "in the given
range" exactly when a range bound was supplied and "No events found for
this property." otherwise. -/
theorem empty_listing_not_found (db : DB) (property_id : Nat)
    (sd ed : Option String)
    (hsd : strTruthy sd = true →
      (validateDateTime (sd.getD "") Time.min).isSome = true)
    (hed : strTruthy ed = true →
      (validateDateTime (ed.getD "") Time.max).isSome = true) :
    (∃ logs, get_property_events db property_id sd ed = .ok logs ∧ logs ≠ [])
    ∨ get_property_events db property_id sd ed =
        .error ⟨404,
          if strTruthy sd || strTruthy ed then
            "No events found for this property in the given range."
          else "No events found for this property."⟩ := by
  unfold get_property_events
  by_cases hs : strTruthy sd = true
  · obtain ⟨ps, hps⟩ := Option.isSome_iff_exists.mp (hsd hs)
    by_cases he : strTruthy ed = true
    · obtain ⟨pe, hpe⟩ := Option.isSome_iff_exists.mp (hed he)
      simp only [hs, he, hps, hpe, if_true, Bool.or_self]
      exact listing_result_cases _ _
    · have he' : strTruthy ed = false := by simpa using he
      simp only [hs, he', hps, if_true, Bool.false_eq_true, if_false,
        Bool.or_false]
      exact listing_result_cases _ _
  · have hs' : strTruthy sd = false := by simpa using hs
    by_cases he : strTruthy ed = true
    · obtain ⟨pe, hpe⟩ := Option.isSome_iff_exists.mp (hed he)
      simp only [hs', he, hpe, Bool.false_eq_true, if_false, if_true,
        Bool.true_or, Bool.false_or]
      exact listing_result_cases _ _
    · have he' : strTruthy ed = false := by simpa using he
      simp only [hs', he', Bool.false_eq_true, if_false, Bool.or_self]
      exact listing_result_cases _ _

/-- C7 witness: on a store with no events and no bounds supplied, the claim
instantiates to the "none at all" 404. -/
theorem empty_listing_not_found_witness :
    (∃ logs, get_property_events ⟨[], [], 1, 1⟩ 1 none none = .ok logs
        ∧ logs ≠ [])
    ∨ get_property_events ⟨[], [], 1, 1⟩ 1 none none =
        .error ⟨404,
          if strTruthy none || strTruthy none then
            "No events found for this property in the given range."
          else "No events found for this property."⟩ :=
  empty_listing_not_found ⟨[], [], 1, 1⟩ 1 none none (by simp [strTruthy])
    (by simp [strTruthy])

/-- C8: create-event performs no existence check on the property: even when
no stored property has the given id (so `get_property` 404s), the event is
inserted with that `propertyId` and returned. -/
theorem create_event_skips_property_check (db : DB) (property_id : Nat)
    (description : String) (timestamp : Option String) (now : DateTime)
    (habsent : ∀ p ∈ db.properties, p.id ≠ property_id)
    (hts : strTruthy timestamp = true →
      (validateDateTime (timestamp.getD "") Time.min).isSome = true) :
    get_property db property_id = .error ⟨404, "Property not found."⟩
    ∧ ∃ db2 log, create_event db property_id description timestamp now =
        .ok (db2, log)
      ∧ log.propertyId = property_id
      ∧ db2.logs = db.logs ++ [log]
      ∧ db2.properties = db.properties := by
  constructor
  · have hfp : db.properties.find? (fun p => p.id == property_id) = none := by
      rw [List.find?_eq_none]
      intro x hx
      simpa using habsent x hx
    simp [get_property, hfp]
  · by_cases hT : strTruthy timestamp = true
    · obtain ⟨t, ht⟩ := Option.isSome_iff_exists.mp (hts hT)
      refine ⟨⟨db.properties,
          db.logs ++ [⟨property_id, db.nextLogId, t, description⟩],
          db.nextPropertyId, db.nextLogId + 1⟩,
        ⟨property_id, db.nextLogId, t, description⟩, ?_, rfl, rfl, rfl⟩
      simp [create_event, hT, ht]
    · have hT' : strTruthy timestamp = false := by simpa using hT
      refine ⟨⟨db.properties,
          db.logs ++ [⟨property_id, db.nextLogId, now, description⟩],
          db.nextPropertyId, db.nextLogId + 1⟩,
        ⟨property_id, db.nextLogId, now, description⟩, ?_, rfl, rfl, rfl⟩
      simp [create_event, hT']

/-- C8 witness: inserting an event for property id 7 in an empty store
succeeds although no such property exists. -/
theorem create_event_skips_property_check_witness :
    get_property ⟨[], [], 1, 1⟩ 7 = .error ⟨404, "Property not found."⟩
    ∧ ∃ db2 log, create_event ⟨[], [], 1, 1⟩ 7 "fixed roof" none now0 =
        .ok (db2, log)
      ∧ log.propertyId = 7
      ∧ db2.logs = [] ++ [log]
      ∧ db2.properties = [] :=
  create_event_skips_property_check ⟨[], [], 1, 1⟩ 7 "fixed roof" none now0
    (by simp) (by simp [strTruthy])

/-- C9: creating a property and fetching it by the returned id yields the
same record with the supplied number and notes, provided the autoincrement
id is fresh (as the store guarantees). -/
theorem create_then_get_property (db : DB) (number notes : String)
    (hfresh : ∀ p ∈ db.properties, p.id ≠ db.nextPropertyId) :
    get_property (create_property db number notes).1
        (create_property db number notes).2.id =
      .ok (create_property db number notes).2
    ∧ (create_property db number notes).2.number = number
    ∧ (create_property db number notes).2.notes = notes := by
  refine ⟨?_, rfl, rfl⟩
  unfold create_property get_property
  have h1 : db.properties.find? (fun p => p.id == db.nextPropertyId) =
      none := by
    rw [List.find?_eq_none]
    intro x hx
    simpa using hfresh x hx
  rw [List.find?_append, h1]
  simp

/-- C9 witness: the round trip on an empty store. -/
theorem create_then_get_property_witness :
    get_property (create_property ⟨[], [], 1, 1⟩ "101" "corner unit").1
        (create_property ⟨[], [], 1, 1⟩ "101" "corner unit").2.id =
      .ok (create_property ⟨[], [], 1, 1⟩ "101" "corner unit").2
    ∧ (create_property ⟨[], [], 1, 1⟩ "101" "corner unit").2.number = "101"
    ∧ (create_property ⟨[], [], 1, 1⟩ "101" "corner unit").2.notes =
        "corner unit" :=
  create_then_get_property ⟨[], [], 1, 1⟩ "101" "corner unit" (by simp)

/-- C10: a parsed timestamp whose time of day is exactly 00:00:00 has that
time replaced by the caller's default, so any two strings parsing to the
same midnight instant — such as an explicit `T00:00:00` form and the
date-only form — are indistinguishable to `validateDateTime` and hence to
the range filters built on it. -/
theorem midnight_replaced_by_default_time (s s2 : String) (d : DateTime)
    (t : Time) (h1 : fromisoformat s = some d) (hmid : d.timePart = Time.min)
    (h2 : fromisoformat s2 = some d)
    (hne1 : s.isEmpty = false) (hne2 : s2.isEmpty = false) :
    validateDateTime s t = some (d.combine t)
    ∧ validateDateTime s t = validateDateTime s2 t
    ∧ ∀ db property_id sd,
        get_property_events db property_id sd (some s) =
          get_property_events db property_id sd (some s2) := by
  refine ⟨?_, ?_, ?_⟩
  · simp [validateDateTime, h1, hmid]
  · simp [validateDateTime, h1, h2]
  · intro db property_id sd
    exact get_property_events_end_ext db property_id s s2 hne1 hne2
      (by simp [validateDateTime, h1, h2]) sd

/-- C10 witness: end bound "2024-01-01T00:00:00" is parsed for filtering as
2024-01-01T23:59:59.999999, the same as the date-only form. -/
theorem midnight_replaced_by_default_time_witness :
    validateDateTime "2024-01-01T00:00:00" Time.max =
      some ⟨2024, 1, 1, 23, 59, 59, 999999⟩
    ∧ validateDateTime "2024-01-01T00:00:00" Time.max =
      validateDateTime "2024-01-01" Time.max
    ∧ ∀ db property_id sd,
        get_property_events db property_id sd (some "2024-01-01T00:00:00") =
          get_property_events db property_id sd (some "2024-01-01") :=
  midnight_replaced_by_default_time "2024-01-01T00:00:00" "2024-01-01"
    ⟨2024, 1, 1, 0, 0, 0, 0⟩ Time.max rfl rfl rfl rfl rfl

end Server
